import Mathlib

/-
Shallow embedding of the SMUSH movie player
(src/engines/scumm/smush/smush_player.cpp) and proofs about its
palette handling, chunk-cursor resynchronization, audio-block ordering,
frame dispatch, frame-skip policy, display blitting and pause handling.

Byte streams are modelled as functions from absolute payload offsets to
byte values; machine bytes and 16-bit words are Nat values reduced mod 256
and mod 65536 at the point where the C code reads them.
-/

namespace Smush

/-! ## Byte stream primitives

The player reads its chunks through a Common::SeekableReadStream.  A chunk
payload is modelled as a function from offset to byte; sequential
readByte/readUint16LE calls in the C code are translated to reads at the
corresponding fixed offsets inside the payload. -/

/-- Byte at offset off of a payload (a stream yields 8-bit values). -/
def byteAt (data : Nat → Nat) (off : Nat) : Nat := data off % 256

/-- readUint16LE: little-endian 16-bit read at offset off. -/
def u16le (data : Nat → Nat) (off : Nat) : Nat :=
  byteAt data off + 256 * byteAt data (off + 1)

/-- Conversion of an unsigned 16-bit value to C int16 (two's complement),
as happens when a readUint16LE result is assigned to an int16 field. -/
def toInt16 (n : Nat) : Int :=
  if n % 65536 < 32768 then (n % 65536 : Int) else (n % 65536 : Int) - 65536

/-! ## Palette state (fields _pal, _deltaPal, _palDirtyMin, _palDirtyMax) -/

/-- The palette-related fields of SmushPlayer: 256 RGB triples stored as a
flat array of 768 byte channels (_pal), the 768-entry signed delta table
(_deltaPal), and the dirty range bounds (_palDirtyMin, _palDirtyMax). -/
structure PalState where
  pal : Fin 768 → Nat
  deltaPal : Fin 768 → Int
  palDirtyMin : Int
  palDirtyMax : Int

/-- SmushPlayer::setDirtyColors (smush_player.cpp lines 1105-1110):
widens the dirty range to include [mn, mx]. -/
def setDirtyColors (mn mx : Int) (s : PalState) : PalState :=
  { s with
    palDirtyMin := if s.palDirtyMin > mn then mn else s.palDirtyMin,
    palDirtyMax := if s.palDirtyMax < mx then mx else s.palDirtyMax }

/-- The CLIP template of common/util.h: v clipped into [lo, hi]. -/
def clip (v lo hi : Int) : Int :=
  if v < lo then lo else if v > hi then hi else v

/-- delta_color (smush_player.cpp lines 729-732):
int t = (org_color * 129 + delta_color) / 128; return CLIP(t, 0, 255).
C integer division truncates toward zero, hence Int.tdiv. -/
def delta_color (orgColor : Nat) (deltaColor : Int) : Nat :=
  (clip (Int.tdiv ((orgColor : Int) * 129 + deltaColor) 128) 0 255).toNat

/-- SmushPlayer::handleDeltaPalette (smush_player.cpp lines 734-760) on the
payload of an XPAL sub-chunk.  With subSize = 0x300*3+4 it skips two 16-bit
words, reads 0x300 little-endian words into _deltaPal (word i sits at
payload offset 4 + 2*i), then reads a full 0x300-byte palette into _pal
(byte i at offset 1540 + i) and marks [0,255] dirty.  With subSize = 6 it
skips three words and replaces each _pal entry by
delta_color(_pal[i], _deltaPal[i]), marking [0,255] dirty.  Any other
subSize calls error(), which terminates playback: modelled as none. -/
def handleDeltaPalette (subSize : Nat) (data : Nat → Nat) (s : PalState) :
    Option PalState :=
  if subSize = 0x300 * 3 + 4 then
    some (setDirtyColors 0 255
      { s with
        deltaPal := fun i => toInt16 (u16le data (4 + 2 * (i : Nat))),
        pal := fun i => byteAt data (1540 + (i : Nat)) })
  else if subSize = 6 then
    some (setDirtyColors 0 255
      { s with pal := fun i => delta_color (s.pal i) (s.deltaPal i) })
  else
    none

/-- SmushPlayer::handleNewPalette (smush_player.cpp lines 762-771):
asserts subSize >= 0x300 (fatal if violated), does nothing when
_skipPalette is set, otherwise reads a full palette and marks [0,255]
dirty. -/
def handleNewPalette (subSize : Nat) (data : Nat → Nat) (skipPalette : Bool)
    (s : PalState) : Option PalState :=
  if subSize < 0x300 then none
  else if skipPalette then some s
  else some (setDirtyColors 0 255
    { s with pal := fun i => byteAt data (i : Nat) })

/-! ## Frame object decoding (SmushPlayer::decodeFrameObject) -/

/-- Which buffer a decoded frame object is written into: the fixed 384x242
special buffer (_specialBuffer) or the primary screen buffer. -/
inductive FrameTarget where
  | special
  | primary
deriving DecidableEq

/-- Outcome of decodeFrameObject: the frame is silently skipped, or decoded
into a target buffer with the player's current dimensions (_width, _height)
set as recorded, or playback dies fatally on an unknown codec id. -/
inductive DecodeResult where
  | skipped
  | decoded (target : FrameTarget) (width height : Nat)
  | fatal
deriving DecidableEq

/-- The codec ids accepted by the switch in decodeFrameObject
(smush_player.cpp lines 797-820); every other id hits error(). -/
def codecKnown (codec : Nat) : Bool :=
  codec = 1 || codec = 3 || codec = 37 || codec = 47 || codec = 20

/-- SmushPlayer::decodeFrameObject (smush_player.cpp lines 776-829), with
the pixel transforms of the codecs abstracted away.  Routing: a 384x242
frame goes to the special buffer with dimensions 384x242; else dimensions
exceeding the screen cause a silent skip; else, outside insanity mode, any
mismatch with the screen dimensions causes a silent skip; otherwise the
frame decodes into the primary buffer with the screen dimensions.  The
codec switch runs only when the frame was not skipped. -/
def decodeFrameObject (insanity : Bool) (screenW screenH codec width height : Nat) :
    DecodeResult :=
  if height = 242 ∧ width = 384 then
    if codecKnown codec then DecodeResult.decoded FrameTarget.special 384 242
    else DecodeResult.fatal
  else if height > screenH ∨ width > screenW then DecodeResult.skipped
  else if ¬insanity ∧ (height ≠ screenH ∨ width ≠ screenW) then DecodeResult.skipped
  else if codecKnown codec then DecodeResult.decoded FrameTarget.primary screenW screenH
  else DecodeResult.fatal

/-! ## Frame-level dispatch (SmushPlayer::handleFrame)

State touched by the frame-level handlers that live in the excerpt.  The
displayPushes field is a ghost counter incremented exactly when the code
calls updateScreen(), which records a pending display push by setting
_updateNeeded. -/

structure FrameState where
  ps : PalState
  width : Nat
  height : Nat
  storeFrame : Bool
  skipNext : Bool
  skipPalette : Bool
  frame : Nat
  updateNeeded : Bool
  displayPushes : Nat

/-- Effect of a successful (non-skipped) decodeFrameObject on the player
state: _width/_height take the recorded dimensions and, if a STOR request
was pending, the frame is copied into _frameBuffer and _storeFrame is
cleared (smush_player.cpp lines 789-795 and 822-828).  A skipped frame
changes nothing (early returns at lines 781-787); an unknown codec is
fatal. -/
def applyDecode (s : FrameState) : DecodeResult → Option FrameState
  | DecodeResult.skipped => some s
  | DecodeResult.decoded _ w h =>
      some { s with width := w, height := h, storeFrame := false }
  | DecodeResult.fatal => none

/-- SmushPlayer::handleFrameObject (smush_player.cpp lines 862-886):
asserts subSize >= 14; a pending skip-next flag consumes the chunk without
decoding; otherwise the FOBJ header is parsed and decodeFrameObject runs. -/
def handleFrameObject (insanity : Bool) (screenW screenH : Nat)
    (subSize codec width height : Nat) (s : FrameState) : Option FrameState :=
  if subSize < 14 then none
  else if s.skipNext then some { s with skipNext := false }
  else applyDecode s (decodeFrameObject insanity screenW screenH codec width height)

/-- A sub-chunk of a FRME chunk, carrying the payload fields the modelled
handlers read.  PSAD, IACT, TRES, SKIP and TEXT act on external
collaborators (mixer, iMUSE, insane, font renderer) and do not touch the
video state modelled in FrameState; the audio paths are modelled separately
below. -/
inductive SubChunk where
  | npal (subSize : Nat) (data : Nat → Nat)
  | fobj (subSize codec width height : Nat)
  | xpal (subSize : Nat) (data : Nat → Nat)
  | stor (subSize : Nat)
  | ftch (subSize : Nat)
  | psad (subSize : Nat)
  | iactChunk (subSize : Nat)
  | tres (subSize : Nat)
  | skipChunk (subSize : Nat)
  | textChunk (subSize : Nat)

/-- Dispatch of one FRME sub-chunk (the switch in SmushPlayer::handleFrame,
smush_player.cpp lines 900-939).  STOR asserts subSize >= 4 then sets
_storeFrame (lines 371-375); FTCH asserts subSize >= 6 and copies the
stored buffer back (lines 377-384), leaving the modelled state unchanged.
None of the handlers calls updateScreen or touches _frame. -/
def handleSubChunk (insanity : Bool) (screenW screenH : Nat) (s : FrameState) :
    SubChunk → Option FrameState
  | SubChunk.npal subSize data =>
      (handleNewPalette subSize data s.skipPalette s.ps).map
        (fun p => { s with ps := p })
  | SubChunk.fobj subSize codec w h =>
      handleFrameObject insanity screenW screenH subSize codec w h s
  | SubChunk.xpal subSize data =>
      (handleDeltaPalette subSize data s.ps).map (fun p => { s with ps := p })
  | SubChunk.stor subSize =>
      if subSize < 4 then none else some { s with storeFrame := true }
  | SubChunk.ftch subSize =>
      if subSize < 6 then none else some s
  | SubChunk.psad _ => some s
  | SubChunk.iactChunk _ => some s
  | SubChunk.tres _ => some s
  | SubChunk.skipChunk _ => some s
  | SubChunk.textChunk _ => some s

/-- The sub-chunk loop of SmushPlayer::handleFrame (lines 896-947),
processing sub-chunks in declaration order and dying on the first fatal
handler error. -/
def runSubChunks (insanity : Bool) (screenW screenH : Nat) :
    List SubChunk → FrameState → Option FrameState
  | [], s => some s
  | c :: cs, s =>
      match handleSubChunk insanity screenW screenH s c with
      | none => none
      | some s1 => runSubChunks insanity screenW screenH cs s1

/-- SmushPlayer::handleFrame (smush_player.cpp lines 888-959): clears
_skipNext, runs all sub-chunks, then - once, after the loop - calls
updateScreen() if _width and _height are both nonzero (lines 953-955) and
increments _frame (line 958). -/
def handleFrame (insanity : Bool) (screenW screenH : Nat)
    (chunks : List SubChunk) (s : FrameState) : Option FrameState :=
  (runSubChunks insanity screenW screenH chunks { s with skipNext := false }).map
    (fun s1 =>
      if s1.width ≠ 0 ∧ s1.height ≠ 0 then
        { s1 with updateNeeded := true,
                  displayPushes := s1.displayPushes + 1, frame := s1.frame + 1 }
      else { s1 with frame := s1.frame + 1 })

/-! ## Chunk cursor resynchronization

In both chunk loops the handler may leave the stream cursor anywhere; the
orchestrator then repositions it with an absolute seek.  handlerPos is the
arbitrary cursor position the handler left behind: the seek discards it,
which is exactly the independence the spec asserts. -/

/-- Cursor position after one FRME sub-chunk is processed
(smush_player.cpp lines 941-946): b.seek(subOffset + subSize, SEEK_SET)
followed by b.skip(1) when subSize is odd.  subOffset is the payload start
(stream position right after the 8-byte sub-chunk header). -/
def subChunkResync (subOffset subSize _handlerPos : Nat) : Nat :=
  if subSize % 2 = 1 then subOffset + subSize + 1 else subOffset + subSize

/-- Cursor position after one top-level chunk is processed in
SmushPlayer::parseNextFrame (smush_player.cpp line 1085):
_base->seek(subOffset + subSize, SEEK_SET), with no padding skip. -/
def topChunkResync (subOffset subSize _handlerPos : Nat) : Nat :=
  subOffset + subSize

/-! ## Audio block ordering -/

/-- Calls that SmushPlayer::handleSoundBuffer makes on the SAUD channel
object for one PSAD block, in order. -/
inductive ChannelAction where
  | setParameters (maxFrames flags vol pan index : Int)
  | checkParameters (index maxFrames flags vol pan : Int)
  | appendData (size : Int)
deriving DecidableEq

/-- SmushPlayer::handleSoundBuffer (smush_player.cpp lines 332-353): when
_middleAudio is set or the block index is 0 the channel parameters are set
unconditionally, otherwise they are validated via checkParameters; in every
case the payload is appended with appendData, and _middleAudio is cleared.
Returns the channel calls made and the new _middleAudio value. -/
def handleSoundBuffer (middleAudio : Bool)
    (index maxFrames flags vol pan size : Int) : List ChannelAction × Bool :=
  ((if middleAudio || index == 0 then
      [ChannelAction.setParameters maxFrames flags vol pan index]
    else
      [ChannelAction.checkParameters index maxFrames flags vol pan])
   ++ [ChannelAction.appendData size], false)

/-- Modelled from the spec: SmushChannel::checkParameters lives in
smush/channel.cpp, which is not part of the excerpt.  Per the spec, the
generic adapter validates that the block index is the immediate successor
of the channel's last-seen index and logs the inconsistency on mismatch
(while the block is still appended). -/
def checkParametersLogs (lastIndex index : Int) : Bool :=
  index ≠ lastIndex + 1

/-- The ordering gate of the DIG branch of SmushPlayer::handleIACT
(smush_player.cpp lines 520-526): a non-zero block index with
_iactTable[bufId] - index != -1 frees the data and returns (block dropped,
table untouched); otherwise _iactTable[bufId] is updated and processing
continues toward diMUSEFeedStream.  Returns (dropped, new table). -/
def digOrderGate (iactTable : Fin 4 → Int) (bufId : Fin 4) (index : Int) :
    Bool × (Fin 4 → Int) :=
  if index ≠ 0 ∧ iactTable bufId - index ≠ -1 then
    (true, iactTable)
  else
    (false, Function.update iactTable bufId index)

/-! ## Play loop tick (SmushPlayer::play) -/

/-- Per-tick inputs to the play loop body (smush_player.cpp lines
1223-1299): whether the decode condition elapsed >= due(_frame) fired,
whether elapsed >= due(_frame + 1) (the clock is at least one frame
behind, which requests a display skip), whether this tick's decode
established a valid frame size (so handleFrame called updateScreen), and
the palette dirty bounds as the loop reads them at lines 1262-1268. -/
structure PlayTickIn where
  fire : Bool
  behindNext : Bool
  frameValid : Bool
  palDirtyMin : Int
  palDirtyMax : Int

/-- Play-loop state carried across ticks: the consecutive-skip counter
(local variable skipped, line 1221) and the pending-display flag
_updateNeeded. -/
structure PlayState where
  skipped : Nat
  updateNeeded : Bool

/-- One iteration of the play loop (smush_player.cpp lines 1223-1299),
restricted to the display-skip logic: skipFrame is set when the decode
fires and the clock is already past the next frame's due time (lines
1246-1252); a non-empty palette dirty range clears it (lines 1262-1268);
the consecutive-skip counter then caps skipping at 10 (lines 1269-1275);
finally a pending frame is blitted unless skipFrame is still set (lines
1276-1287).  Returns the new state and whether a frame was displayed. -/
def playTick (s : PlayState) (t : PlayTickIn) : PlayState × Bool :=
  let skipFrame0 := t.fire && t.behindNext
  let updateNeeded0 := if t.fire && t.frameValid then true else s.updateNeeded
  let skipFrame1 := if t.palDirtyMax ≥ t.palDirtyMin then false else skipFrame0
  let step : Bool × Nat :=
    if skipFrame1 then
      if s.skipped + 1 > 10 then (false, 0) else (true, s.skipped + 1)
    else (false, 0)
  let displayed := updateNeeded0 && !step.1
  ({ skipped := step.2,
     updateNeeded := if displayed then false else updateNeeded0 }, displayed)

/-- Trace of displayed-this-tick flags over a list of tick inputs. -/
def playTrace (s : PlayState) : List PlayTickIn → List Bool
  | [] => []
  | t :: ts =>
      let r := playTick s t
      r.2 :: playTrace r.1 ts

/-- The screen blit of the play loop (smush_player.cpp lines 1276-1284):
w = MIN(_width, _screenWidth), h = MIN(_height, _screenHeight). -/
def blitRect (width height screenW screenH : Nat) : Nat × Nat :=
  (min width screenW, min height screenH)

/-! ## Pause accounting (SmushPlayer::pause / unpause) -/

/-- The pause-related fields of SmushPlayer: _paused, _pauseStartTime and
the accumulated _pauseTime. -/
structure PauseState where
  paused : Bool
  pauseStartTime : Nat
  pauseTime : Nat
deriving DecidableEq

/-- SmushPlayer::pause (smush_player.cpp lines 1173-1178): records the
pause start time, only when not already paused.  now is the value
_system->getMillis() returns at the call. -/
def pause (now : Nat) (s : PauseState) : PauseState :=
  if s.paused then s
  else { paused := true, pauseStartTime := now, pauseTime := s.pauseTime }

/-- SmushPlayer::unpause (smush_player.cpp lines 1180-1186): adds the time
spent paused to _pauseTime and clears the start time, only when paused. -/
def unpause (now : Nat) (s : PauseState) : PauseState :=
  if s.paused then
    { paused := false, pauseStartTime := 0,
      pauseTime := s.pauseTime + (now - s.pauseStartTime) }
  else s

/-! ## Concrete states used by witness theorems -/

/-- Concrete palette state with every channel at 128, a zero delta table
and an empty dirty range (sentinels 256 and -1). -/
def pal128 : PalState :=
  { pal := fun _ => 128, deltaPal := fun _ => 0,
    palDirtyMin := 256, palDirtyMax := -1 }

/-- Concrete palette state with every channel at 100, a zero delta table
and an empty dirty range. -/
def palW : PalState :=
  { pal := fun _ => 100, deltaPal := fun _ => 0,
    palDirtyMin := 256, palDirtyMax := -1 }

/-- Concrete frame state: empty 320x200 view over the palW palette. -/
def wfState : FrameState :=
  { ps := { pal := fun _ => 100, deltaPal := fun _ => 0,
            palDirtyMin := 256, palDirtyMax := -1 },
    width := 320, height := 200, storeFrame := false, skipNext := false,
    skipPalette := false, frame := 0, updateNeeded := false, displayPushes := 0 }

/-- Result of handleFrame on wfState with a single matching FOBJ chunk. -/
def wfOut : FrameState :=
  { wfState with width := 320, height := 200, storeFrame := false,
                 updateNeeded := true, displayPushes := 1, frame := 1 }

/-- Concrete interleaved-audio index table with every entry at 1. -/
def iactW : Fin 4 → Int := fun _ => 1

/-- Concrete tick input: decode fires, the clock is past the next frame,
a valid frame was decoded, the palette dirty range is empty. -/
def tickA : PlayTickIn :=
  { fire := true, behindNext := true, frameValid := true,
    palDirtyMin := 256, palDirtyMax := -1 }

/-- Concrete tick input: no decode this tick, non-empty palette dirty
range [0, 255]. -/
def tickB : PlayTickIn :=
  { fire := false, behindNext := false, frameValid := false,
    palDirtyMin := 0, palDirtyMax := 255 }

/-- Concrete play state: 10 consecutive skips accumulated, frame pending. -/
def psW : PlayState := { skipped := 10, updateNeeded := true }

/-! ## Helper lemmas -/

/-- CLIP into [0,255], cast back to Int, is the clamp written with max/min. -/
theorem clip_cast (v : Int) : ((clip v 0 255).toNat : Int) = max 0 (min v 255) := by
  unfold clip
  split
  · omega
  · split <;> omega

set_option maxRecDepth 4000 in
/-- delta_color under a zero delta, tabulated over all byte values. -/
theorem delta_color_zero_fin :
    ∀ w : Fin 256, delta_color (w : Nat) 0 =
      if (w : Nat) < 128 then (w : Nat) else min ((w : Nat) + 1) 255 := by decide

/-- delta_color with a zero delta keeps values below 128, increments values
in [128, 254] and saturates 255. -/
theorem delta_color_zero (v : Nat) (hv : v ≤ 255) :
    delta_color v 0 = if v < 128 then v else min (v + 1) 255 := by
  have h := delta_color_zero_fin ⟨v, by omega⟩
  simpa using h

/-! ## Claim C2 -/

/-- Claim C2 (counterexample): applying the 6-byte delta-palette operation
with an all-zero delta table to the all-128 palette changes channel 0 from
128 to 129, so a zero delta does not leave every palette value
unchanged. -/
theorem C2_counterexample :
    (handleDeltaPalette 6 (fun _ => 0) pal128).map (fun s => s.pal 0) = some 129
    ∧ pal128.pal 0 = 128 ∧ (129 : Nat) ≠ 128 := by
  refine ⟨by decide, rfl, by decide⟩

/-- Claim C2 (amended): applying the 6-byte delta-palette operation with an
all-zero stored delta table maps each palette channel value v to v when
v < 128, and to min (v + 1) 255 otherwise; in particular the palette is
left unchanged when every channel value is below 128. -/
theorem C2_zero_delta_amended (data : Nat → Nat) (s : PalState)
    (hwf : ∀ i, s.pal i ≤ 255) (hz : ∀ i, s.deltaPal i = 0) :
    ∃ s', handleDeltaPalette 6 data s = some s'
      ∧ (∀ i, s'.pal i = if s.pal i < 128 then s.pal i else min (s.pal i + 1) 255)
      ∧ ((∀ i, s.pal i < 128) → s'.pal = s.pal) := by
  refine ⟨_, rfl, ?_, ?_⟩
  · intro i
    show delta_color (s.pal i) (s.deltaPal i) = _
    rw [hz i, delta_color_zero (s.pal i) (hwf i)]
  · intro hlt
    funext i
    show delta_color (s.pal i) (s.deltaPal i) = _
    rw [hz i, delta_color_zero (s.pal i) (hwf i), if_pos (hlt i)]

/-- Claim C2 (witness for the amended theorem): on the all-100 palette with
zero deltas, the 6-byte delta operation leaves channel 0 at 100. -/
theorem C2_witness :
    (handleDeltaPalette 6 (fun _ => 0) palW).map (fun s => s.pal 0) = some 100 := by
  obtain ⟨s', h, _, hfix⟩ :=
    C2_zero_delta_amended (fun _ => 0) palW
      (fun _ => by show (100 : Nat) ≤ 255; decide) (fun _ => rfl)
  have hp := hfix (fun _ => by show (100 : Nat) < 128; decide)
  rw [h]
  show some (s'.pal 0) = some 100
  rw [hp]
  rfl

/-! ## Claim C5 -/

/-- Claim C5: the 6-byte (apply-delta) branch of handleDeltaPalette
replaces every palette channel value by
clamp((old * 129 + delta) / 128, 0, 255) - with C truncating division -
where delta is the stored signed delta entry, leaves the delta table
unchanged, and widens the dirty range to cover [0, 255]. -/
theorem C5_applyDelta_formula (data : Nat → Nat) (s : PalState) :
    ∃ s', handleDeltaPalette 6 data s = some s'
      ∧ (∀ i, (s'.pal i : Int) =
            max 0 (min (Int.tdiv ((s.pal i : Int) * 129 + s.deltaPal i) 128) 255))
      ∧ s'.deltaPal = s.deltaPal
      ∧ s'.palDirtyMin ≤ 0 ∧ s'.palDirtyMin ≤ s.palDirtyMin
      ∧ 255 ≤ s'.palDirtyMax ∧ s.palDirtyMax ≤ s'.palDirtyMax := by
  refine ⟨_, rfl, ?_, rfl, ?_, ?_, ?_, ?_⟩
  · intro i
    show ((delta_color (s.pal i) (s.deltaPal i) : Nat) : Int) = _
    unfold delta_color
    exact clip_cast _
  all_goals simp only [setDirtyColors]
  all_goals split <;> omega

/-! ## Claim C8 -/

/-- Claim C8: handleDeltaPalette accepts exactly two payload sizes.  With
subSize = 0x300*3+4 it stores the 768 payload words as the new delta table
and copies the 768 trailing payload bytes as the new palette (dirty range
widened to cover [0,255]) without applying any delta to them; with
subSize = 6 it applies the stored deltas to the current palette, leaving
the delta table unchanged; every other size is fatal (none). -/
theorem C8_deltaPalette_sizes (data : Nat → Nat) (s : PalState) :
    (∃ s', handleDeltaPalette (0x300 * 3 + 4) data s = some s'
        ∧ s'.deltaPal = (fun i : Fin 768 => toInt16 (u16le data (4 + 2 * (i : Nat))))
        ∧ s'.pal = (fun i : Fin 768 => byteAt data (1540 + (i : Nat)))
        ∧ s'.palDirtyMin ≤ 0 ∧ 255 ≤ s'.palDirtyMax)
    ∧ (∃ s', handleDeltaPalette 6 data s = some s'
        ∧ s'.pal = (fun i => delta_color (s.pal i) (s.deltaPal i))
        ∧ s'.deltaPal = s.deltaPal)
    ∧ (∀ n, n ≠ 0x300 * 3 + 4 → n ≠ 6 → handleDeltaPalette n data s = none) := by
  refine ⟨⟨_, rfl, rfl, rfl, ?_, ?_⟩, ⟨_, rfl, rfl, rfl⟩, ?_⟩
  · simp only [setDirtyColors]; split <;> omega
  · simp only [setDirtyColors]; split <;> omega
  · intro n h1 h2
    unfold handleDeltaPalette
    rw [if_neg h1, if_neg h2]

/-- Claim C8 (witness): a 7-byte delta-palette payload is fatal. -/
theorem C8_witness :
    handleDeltaPalette 7 (fun _ => 0) palW = none :=
  (C8_deltaPalette_sizes (fun _ => 0) palW).2.2 7 (by decide) (by decide)

/-! ## Claim C1 -/

/-- Claim C1 (counterexample): a top-level chunk in parseNextFrame with
payload start 8 and odd size 3 leaves the cursor at 11, whereas
payloadStart + size rounded up to even (one pad byte for odd sizes) is 12:
the top-level loop consumes no pad byte. -/
theorem C1_counterexample :
    topChunkResync 8 3 25 = 11 ∧ (8 + 3 + 3 % 2 : Nat) = 12
    ∧ (11 : Nat) ≠ 12 := by decide

/-- Claim C1 (amended): independent of the cursor position a handler left
behind, a frame-level sub-chunk inside handleFrame ends with the cursor at
payloadStart + size rounded up to even (one pad byte consumed when size is
odd), while a top-level chunk inside parseNextFrame ends with the cursor at
exactly payloadStart + size, with no pad byte consumed. -/
theorem C1_resync_amended (subOffset subSize hp hq : Nat) :
    subChunkResync subOffset subSize hp = subOffset + subSize + subSize % 2
    ∧ topChunkResync subOffset subSize hq = subOffset + subSize := by
  constructor
  · unfold subChunkResync; split <;> omega
  · rfl

/-! ## Claim C3 -/

/-- Claim C3: for a block with non-zero index that is not the immediate
successor of the track's last-seen index, the generic path
(handleSoundBuffer, outside mid-stream-audio mode) invokes the parameter
validation - which per the spec logs the inconsistency - and still appends
the payload to the channel, while the DIG interleaved path's ordering gate
drops the block without feeding the stream and leaves the index table
untouched. -/
theorem C3_audio_ordering (index maxFrames flags vol pan size lastIndex : Int)
    (table : Fin 4 → Int) (bufId : Fin 4)
    (hnz : index ≠ 0) (hord : index ≠ table bufId + 1)
    (hlog : index ≠ lastIndex + 1) :
    (handleSoundBuffer false index maxFrames flags vol pan size).1
      = [ChannelAction.checkParameters index maxFrames flags vol pan,
         ChannelAction.appendData size]
    ∧ checkParametersLogs lastIndex index = true
    ∧ digOrderGate table bufId index = (true, table) := by
  refine ⟨?_, ?_, ?_⟩
  · simp [handleSoundBuffer, hnz]
  · simp [checkParametersLogs, hlog]
  · unfold digOrderGate
    rw [if_pos ⟨hnz, by omega⟩]

/-- Claim C3 (witness): block index 3 after last-seen index 1 is appended
with a validation call by the generic path and dropped by the DIG gate. -/
theorem C3_witness :
    (handleSoundBuffer false 3 7 0 127 0 42).1
      = [ChannelAction.checkParameters 3 7 0 127 0, ChannelAction.appendData 42]
    ∧ checkParametersLogs 1 3 = true
    ∧ digOrderGate iactW 0 3 = (true, iactW) :=
  C3_audio_ordering 3 7 0 127 0 42 1 iactW 0 (by decide)
    (by show (3 : Int) ≠ iactW 0 + 1; decide) (by decide)

/-! ## Claim C6 -/

/-- Claim C6: decodeFrameObject routes by dimensions exactly as the spec
says: a 384x242 frame decodes into the special buffer with current
dimensions 384x242; otherwise dimensions exceeding the screen give a
silent skip; otherwise, outside insanity mode, any mismatch with the
screen dimensions gives a silent skip; otherwise the frame decodes into
the primary buffer with the screen dimensions. -/
theorem C6_decode_routing (insanity : Bool) (screenW screenH codec w h : Nat)
    (hc : codecKnown codec = true) :
    (w = 384 ∧ h = 242 →
      decodeFrameObject insanity screenW screenH codec w h
        = DecodeResult.decoded FrameTarget.special 384 242)
    ∧ (¬(w = 384 ∧ h = 242) → w > screenW ∨ h > screenH →
      decodeFrameObject insanity screenW screenH codec w h = DecodeResult.skipped)
    ∧ (¬(w = 384 ∧ h = 242) → w ≤ screenW → h ≤ screenH → insanity = false →
      w ≠ screenW ∨ h ≠ screenH →
      decodeFrameObject insanity screenW screenH codec w h = DecodeResult.skipped)
    ∧ (¬(w = 384 ∧ h = 242) → w ≤ screenW → h ≤ screenH →
      (insanity = true ∨ (w = screenW ∧ h = screenH)) →
      decodeFrameObject insanity screenW screenH codec w h
        = DecodeResult.decoded FrameTarget.primary screenW screenH) := by
  refine ⟨?_, ?_, ?_, ?_⟩
  · rintro ⟨hw, hh⟩
    unfold decodeFrameObject
    rw [if_pos ⟨hh, hw⟩, if_pos hc]
  · intro hne hgt
    unfold decodeFrameObject
    rw [if_neg (fun q => hne ⟨q.2, q.1⟩), if_pos (hgt.symm.imp (fun a => a) (fun a => a))]
  · intro hne hw hh hins hmm
    unfold decodeFrameObject
    rw [if_neg (fun q => hne ⟨q.2, q.1⟩), if_neg (by omega),
      if_pos ⟨by simp [hins], hmm.symm.imp (fun a => a) (fun a => a)⟩]
  · intro hne hw hh hok
    unfold decodeFrameObject
    rw [if_neg (fun q => hne ⟨q.2, q.1⟩), if_neg (by omega), if_neg ?_, if_pos hc]
    rcases hok with hi | ⟨hweq, hheq⟩
    · rintro ⟨hni, _⟩; exact hni (by simp [hi])
    · rintro ⟨_, hne2⟩; omega

/-- Claim C6 (witness): on a 320x200 screen with codec 47, a 384x242 frame
targets the special buffer, a 400x100 frame is skipped as oversized, a
300x100 frame is skipped as mismatched outside insanity mode, and a
320x200 frame targets the primary buffer. -/
theorem C6_witness :
    decodeFrameObject false 320 200 47 384 242
      = DecodeResult.decoded FrameTarget.special 384 242
    ∧ decodeFrameObject false 320 200 47 400 100 = DecodeResult.skipped
    ∧ decodeFrameObject false 320 200 47 300 100 = DecodeResult.skipped
    ∧ decodeFrameObject false 320 200 47 320 200
      = DecodeResult.decoded FrameTarget.primary 320 200 :=
  ⟨(C6_decode_routing false 320 200 47 384 242 (by decide)).1 (by decide),
   (C6_decode_routing false 320 200 47 400 100 (by decide)).2.1 (by decide) (by decide),
   (C6_decode_routing false 320 200 47 300 100 (by decide)).2.2.1 (by decide)
     (by decide) (by decide) rfl (by decide),
   (C6_decode_routing false 320 200 47 320 200 (by decide)).2.2.2 (by decide)
     (by decide) (by decide) (Or.inr (by decide))⟩

/-! ## Claim C9 -/

/-- Claim C9: every display push in the play loop blits a rectangle of
width min(_width, screenWidth) and height min(_height, screenHeight), so
the blit region never exceeds the screen dimensions, even for the 384x242
special-buffer dimensions on a smaller screen. -/
theorem C9_blit_bounds (width height screenW screenH : Nat) :
    blitRect width height screenW screenH = (min width screenW, min height screenH)
    ∧ (blitRect width height screenW screenH).1 ≤ screenW
    ∧ (blitRect width height screenW screenH).2 ≤ screenH :=
  ⟨rfl, Nat.min_le_right _ _, Nat.min_le_right _ _⟩

/-! ## Claim C10 -/

/-- Claim C10: pause and unpause are idempotent - a second pause (at any
later time) or a second unpause changes nothing, pausing while paused and
unpausing while unpaused are no-ops - and a matched pause/unpause pair
increases the accumulated pause time by exactly the wall-clock duration
between the two calls. -/
theorem C10_pause_unpause (s : PauseState) (t1 t2 : Nat) :
    pause t2 (pause t1 s) = pause t1 s
    ∧ unpause t2 (unpause t1 s) = unpause t1 s
    ∧ (s.paused = true → pause t1 s = s)
    ∧ (s.paused = false → unpause t1 s = s)
    ∧ (s.paused = false → t1 ≤ t2 →
        (unpause t2 (pause t1 s)).pauseTime = s.pauseTime + (t2 - t1)
        ∧ (unpause t2 (pause t1 s)).paused = false) := by
  obtain ⟨p, st, pt⟩ := s
  cases p <;>
    simp [pause, unpause]

/-- Claim C10 (witness): from the unpaused zero state, pausing at 5 twice
equals pausing once, and pausing at 5 then unpausing at 9 accumulates
exactly 4 ticks of pause time. -/
theorem C10_witness :
    pause 7 (pause 5 ⟨false, 0, 0⟩) = pause 5 ⟨false, 0, 0⟩
    ∧ (unpause 9 (pause 5 ⟨false, 0, 0⟩)).pauseTime = 0 + (9 - 5) :=
  ⟨(C10_pause_unpause ⟨false, 0, 0⟩ 5 7).1,
   ((C10_pause_unpause ⟨false, 0, 0⟩ 5 9).2.2.2.2 rfl (by decide)).1⟩

/-! ## Claim C7 -/

/-- No frame-level sub-chunk handler pushes to the display or touches the
frame counter: both ghost fields survive every handler unchanged. -/
theorem handleSubChunk_ghost (insanity : Bool) (screenW screenH : Nat)
    (s : FrameState) (c : SubChunk) (s1 : FrameState)
    (h : handleSubChunk insanity screenW screenH s c = some s1) :
    s1.frame = s.frame ∧ s1.displayPushes = s.displayPushes := by
  cases c with
  | npal subSize data =>
      simp only [handleSubChunk, Option.map_eq_some'] at h
      obtain ⟨p, _, hp⟩ := h
      subst hp
      exact ⟨rfl, rfl⟩
  | xpal subSize data =>
      simp only [handleSubChunk, Option.map_eq_some'] at h
      obtain ⟨p, _, hp⟩ := h
      subst hp
      exact ⟨rfl, rfl⟩
  | fobj subSize codec w hh =>
      simp only [handleSubChunk, handleFrameObject] at h
      split at h
      · cases h
      · split at h
        · cases h; exact ⟨rfl, rfl⟩
        · cases hd : decodeFrameObject insanity screenW screenH codec w hh <;>
            rw [hd] at h <;> simp only [applyDecode] at h
          · cases h; exact ⟨rfl, rfl⟩
          · cases h; exact ⟨rfl, rfl⟩
          · cases h
  | stor subSize =>
      simp only [handleSubChunk] at h
      split at h
      · cases h
      · cases h; exact ⟨rfl, rfl⟩
  | ftch subSize =>
      simp only [handleSubChunk] at h
      split at h
      · cases h
      · cases h; exact ⟨rfl, rfl⟩
  | psad subSize => cases h; exact ⟨rfl, rfl⟩
  | iactChunk subSize => cases h; exact ⟨rfl, rfl⟩
  | tres subSize => cases h; exact ⟨rfl, rfl⟩
  | skipChunk subSize => cases h; exact ⟨rfl, rfl⟩
  | textChunk subSize => cases h; exact ⟨rfl, rfl⟩

/-- The whole sub-chunk loop of handleFrame preserves the frame counter and
the display-push counter. -/
theorem runSubChunks_ghost (insanity : Bool) (screenW screenH : Nat) :
    ∀ (cs : List SubChunk) (s s1 : FrameState),
      runSubChunks insanity screenW screenH cs s = some s1 →
      s1.frame = s.frame ∧ s1.displayPushes = s.displayPushes
  | [], s, s1, h => by
      cases h; exact ⟨rfl, rfl⟩
  | c :: cs, s, s1, h => by
      simp only [runSubChunks] at h
      cases hc : handleSubChunk insanity screenW screenH s c with
      | none => rw [hc] at h; cases h
      | some s2 =>
          rw [hc] at h
          have h1 := handleSubChunk_ghost insanity screenW screenH s c s2 hc
          have h2 := runSubChunks_ghost insanity screenW screenH cs s2 s1 h
          exact ⟨h2.1.trans h1.1, h2.2.trans h1.2⟩

/-- Claim C7: whenever a FRME chunk is processed to completion, the frame
counter increments by exactly one, and exactly one display push happens if
the finishing state has a valid (nonzero) frame size - zero pushes
otherwise - regardless of how many image sub-chunks the frame contained. -/
theorem C7_frame_push (insanity : Bool) (screenW screenH : Nat)
    (chunks : List SubChunk) (s s1 : FrameState)
    (h : handleFrame insanity screenW screenH chunks s = some s1) :
    s1.frame = s.frame + 1
    ∧ s1.displayPushes
        = s.displayPushes + (if s1.width ≠ 0 ∧ s1.height ≠ 0 then 1 else 0) := by
  unfold handleFrame at h
  cases hr : runSubChunks insanity screenW screenH chunks { s with skipNext := false } with
  | none => rw [hr] at h; cases h
  | some s2 =>
      rw [hr] at h
      simp only [Option.map_some'] at h
      have hg := runSubChunks_ghost insanity screenW screenH chunks _ s2 hr
      by_cases hv : s2.width ≠ 0 ∧ s2.height ≠ 0
      · rw [if_pos hv] at h
        injection h with h
        subst h
        exact ⟨by simp [hg.1], by simp [hg.2, hv]⟩
      · rw [if_neg hv] at h
        injection h with h
        subst h
        exact ⟨by simp [hg.1], by simp [hg.2, hv]⟩

/-- Claim C7 (witness): a frame consisting of one matching 320x200 FOBJ
sub-chunk on a 320x200 screen decodes, pushes the display exactly once and
advances the frame counter from 0 to 1. -/
theorem C7_witness :
    handleFrame false 320 200 [SubChunk.fobj 14 47 320 200] wfState = some wfOut
    ∧ wfOut.frame = wfState.frame + 1
    ∧ wfOut.displayPushes
        = wfState.displayPushes + (if wfOut.width ≠ 0 ∧ wfOut.height ≠ 0 then 1 else 0) := by
  have h : handleFrame false 320 200 [SubChunk.fobj 14 47 320 200] wfState = some wfOut := rfl
  exact ⟨h, (C7_frame_push false 320 200 _ wfState wfOut h).1,
    (C7_frame_push false 320 200 _ wfState wfOut h).2⟩

/-! ## Claim C4 -/

/-- A tick whose decode fired with a valid frame and that did not display
must have taken the skip branch: the skip counter increments by exactly
one, and it can only do so from a value of at most 9. -/
theorem playTick_suppressed (s : PlayState) (t : PlayTickIn)
    (hf : t.fire = true) (hv : t.frameValid = true)
    (hd : (playTick s t).2 = false) :
    (playTick s t).1.skipped = s.skipped + 1 ∧ s.skipped ≤ 9 := by
  unfold playTick at hd ⊢
  simp only [hf, hv, Bool.true_and, Bool.and_true] at hd ⊢
  by_cases hp : t.palDirtyMax ≥ t.palDirtyMin
  · rw [if_pos hp] at hd
    simp at hd
  · rw [if_neg hp] at hd ⊢
    by_cases hb : t.behindNext = true
    · rw [hb] at hd ⊢
      simp only [if_pos rfl] at hd ⊢
      by_cases hc : s.skipped + 1 > 10
      · rw [if_pos hc] at hd; simp at hd
      · rw [if_neg hc] at hd ⊢
        exact ⟨rfl, by omega⟩
    · replace hb : t.behindNext = false := by
        cases hbn : t.behindNext
        · rfl
        · exact absurd hbn hb
      rw [hb] at hd
      simp at hd

/-- In a run of consecutive non-displaying ticks, each with a fired decode
that produced a valid frame, the run length is bounded by what the skip
counter still allows. -/
theorem playTrace_suppressed_bound :
    ∀ (ts : List PlayTickIn) (s : PlayState),
      (∀ t ∈ ts, t.fire = true ∧ t.frameValid = true) →
      (∀ d ∈ playTrace s ts, d = false) →
      ts.length ≤ 10 - s.skipped
  | [], _, _, _ => by simp
  | t :: ts, s, hin, hall => by
      have ht := hin t (List.mem_cons_self t ts)
      have hd : (playTick s t).2 = false := by
        refine hall _ ?_
        simp [playTrace]
      have hstep := playTick_suppressed s t ht.1 ht.2 hd
      have ih := playTrace_suppressed_bound ts (playTick s t).1
        (fun u hu => hin u (List.mem_cons_of_mem _ hu))
        (fun d hd2 => hall d (by simp [playTrace]; exact Or.inr hd2))
      rw [hstep.1] at ih
      simp only [List.length_cons]
      omega

/-- Claim C4: in the play loop, (a) over any 11 consecutive ticks on each
of which the decode fires and yields a valid frame, at least one frame is
displayed - display is never suppressed more than 10 consecutive ticks;
(b) on a tick with a non-empty palette dirty range
(palDirtyMax >= palDirtyMin) and a pending frame, the skip flag is cleared
so the frame displays and the skip counter resets; (c) once 10 consecutive
skips have accumulated, the next tick with a pending frame displays it and
resets the counter. -/
theorem C4_skip_policy (s : PlayState) (ts : List PlayTickIn) (t : PlayTickIn)
    (hlen : ts.length = 11)
    (hin : ∀ u ∈ ts, u.fire = true ∧ u.frameValid = true) :
    true ∈ playTrace s ts
    ∧ (s.updateNeeded = true → t.palDirtyMax ≥ t.palDirtyMin →
        (playTick s t).2 = true ∧ (playTick s t).1.skipped = 0)
    ∧ (s.updateNeeded = true → s.skipped = 10 →
        (playTick s t).2 = true ∧ (playTick s t).1.skipped = 0) := by
  refine ⟨?_, ?_, ?_⟩
  · by_contra hno
    have hall : ∀ d ∈ playTrace s ts, d = false := by
      intro d hd
      cases d
      · rfl
      · exact absurd hd hno
    have := playTrace_suppressed_bound ts s hin hall
    omega
  · intro hu hp
    unfold playTick
    simp only [hu, if_pos hp]
    simp
  · intro hu hsk
    unfold playTick
    simp only [hu, hsk]
    by_cases hp : t.palDirtyMax ≥ t.palDirtyMin
    · rw [if_pos hp]; simp
    · rw [if_neg hp]
      by_cases hb : (t.fire && t.behindNext) = true
      · rw [hb]
        simp
      · replace hb : (t.fire && t.behindNext) = false := by
          cases hq : (t.fire && t.behindNext)
          · rfl
          · exact absurd hq hb
        rw [hb]
        simp

/-- Claim C4 (witness): from a pending-frame state with 10 accumulated
skips, 11 always-behind decode ticks contain a display; a dirty-palette
tick displays and resets the counter; the tick after 10 skips displays and
resets the counter. -/
theorem C4_witness :
    true ∈ playTrace psW (List.replicate 11 tickA)
    ∧ ((playTick psW tickB).2 = true ∧ (playTick psW tickB).1.skipped = 0)
    ∧ ((playTick psW tickB).2 = true ∧ (playTick psW tickB).1.skipped = 0) := by
  have h := C4_skip_policy psW (List.replicate 11 tickA) tickB (by simp)
    (fun u hu => by
      rw [List.eq_of_mem_replicate hu]
      exact ⟨rfl, rfl⟩)
  exact ⟨h.1, h.2.1 rfl (by show (255 : Int) ≥ 0; decide), h.2.2 rfl rfl⟩

end Smush
